import Mathlib

/-!
# Verification of `aya/src/programs/extension.rs`

A shallow embedding of the Extension-program subsystem (load / attach /
attach_to_program / get_btf_info) of the aya BPF library, together with
proofs of the specification's claims about it.

External kernel interactions (syscalls) are modelled by an oracle
structure `Kernel`; OS-level effects that the claims talk about (which
fds are open, which link-create calls were issued) are tracked in an
explicit `SysState` threaded through the operations.  Rust's RAII drop
of an owned fd on an early-return path is embedded as an explicit
`closeFd` on that path.
-/

namespace AyaExt

/-- Errors from the BTF (type-description blob) library, as consumed here:
either the blob failed to parse, or a named function was not found. -/
inductive BtfError
  | parseError (msg : String)
  | unknownName (name : String)
deriving DecidableEq, Repr

/-- The `ExtensionError` type from `extension.rs`: the target BPF program does not
have BTF loaded to the kernel. -/
inductive ExtensionError
  | noBTF
deriving DecidableEq, Repr

/-- The slice of `ProgramError` used by `extension.rs`. -/
inductive ProgramError
  | notLoaded
  | extensionError (e : ExtensionError)
  | btf (e : BtfError)
  | syscallError (call : String) (io_error : Nat)
deriving DecidableEq, Repr

/-- The argument record of one `bpf_link_create` invocation, as issued by
`Extension::attach` / `Extension::attach_to_program`. -/
structure LinkCreateCall where
  progFd : Nat
  targetFd : Nat
  attachType : Nat
  flags : Nat
  targetBtfId : Option Nat
deriving DecidableEq, Repr

/-- OS-level state visible to the claims: the fds this subsystem holds
open, the next fresh fd number, and the trace of link-create calls. -/
structure SysState where
  openFds : List Nat
  nextFd : Nat
  linkCalls : List LinkCreateCall
deriving DecidableEq, Repr

def SysState.init : SysState := ⟨[], 0, []⟩

/-- Allocate a fresh OS handle. -/
def openFd (s : SysState) : Nat × SysState :=
  (s.nextFd, { s with openFds := s.nextFd :: s.openFds, nextFd := s.nextFd + 1 })

/-- Close (drop) an OS handle. -/
def closeFd (fd : Nat) (s : SysState) : SysState :=
  { s with openFds := s.openFds.erase fd }

/-- A parsed BTF type graph, as consumed by `get_btf_info`: the only
query made of it is `id_by_type_name_kind(func_name, BtfKind::Func)`. -/
structure Btf where
  idByFuncName : String → Except BtfError Nat

/-- Oracle for the external kernel calls and the external BTF parser.
Each field gives the (deterministic) outcome the environment would
produce for the corresponding call. -/
structure Kernel where
  /-- Outcome of `bpf_prog_get_info_by_fd(prog_fd)`: OS error, or the `btf_id`
  field of the returned program info. -/
  progBtfId : Nat → Except Nat Nat
  /-- Outcome of `bpf_btf_get_fd_by_id(btf_id)`: OS error, or success (the fd number
  itself is allocated from `SysState`). -/
  btfGetFd : Nat → Except Nat Unit
  /-- Outcome of `btf_obj_get_info_by_fd(btf_fd, buf)` on round `i` with a buffer of
  the given length: OS error, or the `btf_size` the kernel reports. -/
  btfObjSize : Nat → Nat → Except Nat Nat
  /-- Result of `Btf::parse` applied to the fetched blob (keyed by its truncated
  size, which determines the bytes). -/
  parse : Nat → Except BtfError Btf
  /-- Outcome of `bpf_link_create` for a given argument record: OS error, or
  success (the link fd is allocated from `SysState`). -/
  linkCreate : LinkCreateCall → Except Nat Unit
  /-- outcome of the generic `load_program` kernel load. -/
  loadProgram : Except ProgramError Unit

/-- The value `bpf_attach_type::BPF_CGROUP_INET_INGRESS` — the kernel enum's zero
value, used by `extension.rs` as the required attach-type for extension
links. -/
def BPF_CGROUP_INET_INGRESS : Nat := 0

/-- The growing-buffer fetch loop of `get_btf_info` (extension.rs lines
180–189), extracted with explicit fuel since the Rust `loop` has no
syntactic bound.  `round` counts prior fetches, `bufLen` is the current
buffer length.  Returns `none` if fuel runs out (the Rust loop would
still be running), otherwise the propagated OS error or the final
(truncated) buffer size together with the list of resize targets
performed, in order. -/
def btfFetchLoop (f : Nat → Nat → Except Nat Nat) :
    Nat → Nat → Nat → Option (Except Nat (Nat × List Nat))
  | 0, _, _ => none
  | fuel + 1, round, bufLen =>
    match f round bufLen with
    | .error e => some (.error e)
    | .ok btf_size =>
      if btf_size > bufLen then
        match btfFetchLoop f fuel (round + 1) btf_size with
        | none => none
        | some (.error e) => some (.error e)
        | some (.ok (final, rs)) => some (.ok (final, btf_size :: rs))
      else
        some (.ok (btf_size, []))

/-- The function `get_btf_info(prog_fd, func_name)` from `extension.rs`: retrieves the
fd of the BTF object of `prog_fd` and the BTF id of the function named
`func_name` inside it.  `fuel` bounds the fetch loop; `none` means the
Rust loop would not yet have terminated.  Error paths after the BTF fd
has been opened close it (Rust drops the owned fd on `?`-return). -/
def get_btf_info (K : Kernel) (fuel : Nat) (prog_fd : Nat) (func_name : String)
    (s : SysState) : Option (Except ProgramError (Nat × Nat) × SysState) :=
  match K.progBtfId prog_fd with
  | .error e => some (.error (.syscallError "bpf_prog_get_info_by_fd" e), s)
  | .ok btf_id =>
    if btf_id = 0 then
      some (.error (.extensionError .noBTF), s)
    else
      match K.btfGetFd btf_id with
      | .error e => some (.error (.syscallError "bpf_btf_get_fd_by_id" e), s)
      | .ok () =>
        let (btf_fd, s) := openFd s
        match btfFetchLoop K.btfObjSize fuel 0 4096 with
        | none => none
        | some (.error e) =>
          some (.error (.syscallError "btf_obj_get_info_by_fd" e), closeFd btf_fd s)
        | some (.ok (btf_size, _)) =>
          match K.parse btf_size with
          | .error e => some (.error (.btf e), closeFd btf_fd s)
          | .ok btf =>
            match btf.idByFuncName func_name with
            | .error e => some (.error (.btf e), closeFd btf_fd s)
            | .ok btf_id => some (.ok (btf_fd, btf_id), s)

/-- The slots of `ProgramData` read and written by `extension.rs`:
the program's own fd (present iff loaded), the three attach parameters,
and the link table (a list of link fds; inserting returns the fd as the
link id). -/
structure ProgramData where
  fd : Option Nat
  attach_btf_obj_fd : Option Nat
  attach_prog_fd : Option Nat
  attach_btf_id : Option Nat
  links : List Nat
deriving DecidableEq, Repr

def ProgramData.initial : ProgramData := ⟨none, none, none, none, []⟩

/-- Modelled from the spec: `ProgramData::fd` is not under `src/`; per
§4.3 an attach operation "requires the program to be loaded (own program
handle available) ... otherwise fails with `NotLoaded`", so `self.fd()`
yields the own program handle or `NotLoaded`. -/
def ProgramData.fdRes (d : ProgramData) : Except ProgramError Nat :=
  match d.fd with
  | none => .error .notLoaded
  | some fd => .ok fd

/-- Modelled from the spec: the generic `load_program` is not under
`src/`; per §6 it is `load_program(program_type_tag, load_params) ->
unit | error`, "mutating the program from not-loaded to loaded".  On
success it acquires the program's own kernel handle and stores it; on
failure it reports the generic load error and the program stays
not-loaded (its `fd` stays absent). -/
def load_program (K : Kernel) (d : ProgramData) (s : SysState) :
    Except ProgramError Unit × ProgramData × SysState :=
  match K.loadProgram with
  | .error e => (.error e, d, s)
  | .ok () =>
    let (fd, s) := openFd s
    (.ok (), { d with fd := some fd }, s)

/-- Wrapper for `bpf_link_create`: records the issued call in the trace and
consults the kernel oracle; on success a fresh link fd is allocated. -/
def bpf_link_create (K : Kernel) (c : LinkCreateCall) (s : SysState) :
    Except Nat Nat × SysState :=
  let s := { s with linkCalls := s.linkCalls ++ [c] }
  match K.linkCreate c with
  | .error e => (.error e, s)
  | .ok () =>
    let (fd, s) := openFd s
    (.ok fd, s)

/-- The `Extension` program wrapper from `extension.rs`. -/
structure Extension where
  data : ProgramData
deriving DecidableEq, Repr

namespace Extension

/-- The method `Extension::load(program, func_name)` (extension.rs lines 79–86):
resolve `(program, func_name)` with `get_btf_info`, store the triple
into the attach slots, then delegate to the generic `load_program`. -/
def load (K : Kernel) (fuel : Nat) (e : Extension) (program : Nat)
    (func_name : String) (s : SysState) :
    Option (Except ProgramError Unit × Extension × SysState) :=
  match get_btf_info K fuel program func_name s with
  | none => none
  | some (.error err, s) => some (.error err, e, s)
  | some (.ok (btf_fd, btf_id), s) =>
    let d := { e.data with
                attach_btf_obj_fd := some btf_fd
                attach_prog_fd := some program
                attach_btf_id := some btf_id }
    let (r, d, s) := load_program K d s
    some (r, ⟨d⟩, s)

/-- The method `Extension::attach()` (extension.rs lines 95–120): requires the own
program fd and the stored attach parameters, issues one
`bpf_link_create` with the stored target fd and BTF id, attach type
`BPF_CGROUP_INET_INGRESS` (= 0) and flags 0, and on success inserts the
link into the link table, returning its id. -/
def attach (K : Kernel) (e : Extension) (s : SysState) :
    Except ProgramError Nat × Extension × SysState :=
  match e.data.fdRes with
  | .error err => (.error err, e, s)
  | .ok prog_fd =>
    match e.data.attach_prog_fd with
    | none => (.error .notLoaded, e, s)
    | some target_fd =>
      match e.data.attach_btf_id with
      | none => (.error .notLoaded, e, s)
      | some btf_id =>
        match bpf_link_create K
            ⟨prog_fd, target_fd, BPF_CGROUP_INET_INGRESS, 0, some btf_id⟩ s with
        | (.error io_error, s) =>
          (.error (.syscallError "bpf_link_create" io_error), e, s)
        | (.ok link_fd, s) =>
          (.ok link_fd, ⟨{ e.data with links := e.data.links ++ [link_fd] }⟩, s)

/-- The method `Extension::attach_to_program(program, func_name)` (extension.rs
lines 133–157): re-resolves against the supplied pair (the returned BTF
fd is immediately dropped), then issues the same link-create shape with
the new target and BTF id, inserting the link on success. -/
def attach_to_program (K : Kernel) (fuel : Nat) (e : Extension)
    (program : Nat) (func_name : String) (s : SysState) :
    Option (Except ProgramError Nat × Extension × SysState) :=
  match get_btf_info K fuel program func_name s with
  | none => none
  | some (.error err, s) => some (.error err, e, s)
  | some (.ok (btf_fd, btf_id), s) =>
    let s := closeFd btf_fd s
    match e.data.fdRes with
    | .error err => some (.error err, e, s)
    | .ok prog_fd =>
      match bpf_link_create K
          ⟨prog_fd, program, BPF_CGROUP_INET_INGRESS, 0, some btf_id⟩ s with
      | (.error io_error, s) =>
        some (.error (.syscallError "bpf_link_create" io_error), e, s)
      | (.ok link_fd, s) =>
        some (.ok link_fd, ⟨{ e.data with links := e.data.links ++ [link_fd] }⟩, s)

end Extension

/-! ## Concrete environments, used by witnesses and counterexamples -/

/-- A kernel where every call succeeds: every target program reports BTF
id 7, the blob is 100 bytes, and every function name resolves to BTF id
42. -/
def Kok : Kernel where
  progBtfId := fun _ => .ok 7
  btfGetFd := fun _ => .ok ()
  btfObjSize := fun _ _ => .ok 100
  parse := fun _ => .ok ⟨fun _ => .ok 42⟩
  linkCreate := fun _ => .ok ()
  loadProgram := .ok ()

/-- Like `Kok` but every target program reports BTF id 0. -/
def Kzero : Kernel := { Kok with progBtfId := fun _ => .ok 0 }

/-- Like `Kok` but the generic program load fails. -/
def KloadFail : Kernel :=
  { Kok with loadProgram := .error (.syscallError "bpf_prog_load" 5) }

/-- Like `Kok` but the fetched blob fails to parse. -/
def KparseFail : Kernel := { Kok with parse := fun _ => .error (.parseError "bad") }

/-- Like `Kok` but `bpf_link_create` fails with OS error 22. -/
def KlinkFail : Kernel := { Kok with linkCreate := fun _ => .error 22 }

/-- A loaded extension with populated attach parameters. -/
def Eloaded : Extension := ⟨⟨some 1, some 2, some 3, some 4, []⟩⟩

/-! ## Helper lemmas -/

/-- Helper: `get_btf_info` never issues a link-create call: the call trace is
preserved on every path. -/
theorem get_btf_info_linkCalls_eq (K : Kernel) (fuel prog_fd : Nat) (fn : String)
    (s : SysState) (r : Except ProgramError (Nat × Nat)) (s' : SysState)
    (h : get_btf_info K fuel prog_fd fn s = some (r, s')) :
    s'.linkCalls = s.linkCalls := by
  unfold get_btf_info at h
  simp only [openFd] at h
  repeat' split at h
  all_goals (try simp only [Option.some.injEq, Prod.mk.injEq] at h)
  all_goals obtain ⟨hr, hs'⟩ := h
  all_goals subst hs'
  all_goals simp [closeFd]


/-! ## Claims -/

/-- C4: if the target program's metadata reports BTF id 0, resolution
(and hence `Extension::load`) fails with the `NoBTF` error (the spec's
`NoTypeInfo`), returns before any handle to the BTF blob is opened, and
the OS state is completely unchanged (zero additional handles opened). -/
theorem get_btf_info_noBTF (K : Kernel) (fuel prog_fd : Nat) (fn : String)
    (s : SysState) (e : Extension) (h : K.progBtfId prog_fd = .ok 0) :
    get_btf_info K fuel prog_fd fn s = some (.error (.extensionError .noBTF), s) ∧
    Extension.load K fuel e prog_fd fn s =
      some (.error (.extensionError .noBTF), e, s) := by
  have h1 : get_btf_info K fuel prog_fd fn s =
      some (.error (.extensionError .noBTF), s) := by
    unfold get_btf_info
    rw [h]
    simp
  exact ⟨h1, by simp [Extension.load, h1]⟩

/-- C4 witness: a concrete kernel reporting BTF id 0. -/
theorem get_btf_info_noBTF_witness :
    get_btf_info Kzero 2 9 "fn" SysState.init =
      some (.error (.extensionError .noBTF), SysState.init) ∧
    Extension.load Kzero 2 ⟨ProgramData.initial⟩ 9 "fn" SysState.init =
      some (.error (.extensionError .noBTF), ⟨ProgramData.initial⟩, SysState.init) :=
  get_btf_info_noBTF Kzero 2 9 "fn" SysState.init ⟨ProgramData.initial⟩ rfl

/-- C5: if no load has succeeded (own program fd absent, or either attach
parameter absent), `Extension::attach` fails with `NotLoaded` and leaves
the program and OS state untouched — in particular zero link-create
calls are issued. -/
theorem attach_not_loaded (K : Kernel) (e : Extension) (s : SysState)
    (h : e.data.fd = none ∨ e.data.attach_prog_fd = none ∨
         e.data.attach_btf_id = none) :
    Extension.attach K e s = (.error .notLoaded, e, s) := by
  unfold Extension.attach ProgramData.fdRes
  rcases h with h | h | h
  · rw [h]
  · cases hfd : e.data.fd <;> simp [h]
  · cases hfd : e.data.fd <;> cases hp : e.data.attach_prog_fd <;> simp [h]

/-- C5 witness: a freshly-constructed, never-loaded extension. -/
theorem attach_not_loaded_witness :
    Extension.attach Kok ⟨ProgramData.initial⟩ SysState.init =
      (.error .notLoaded, ⟨ProgramData.initial⟩, SysState.init) :=
  attach_not_loaded Kok ⟨ProgramData.initial⟩ SysState.init (Or.inl rfl)

/-- C6: for a blob strictly larger than the initial 4096-byte buffer
whose size the kernel reports consistently, the fetch loop performs
exactly one resize, to exactly the reported size, and succeeds on the
second fetch with the buffer truncated to that size. -/
theorem btfFetchLoop_resize_once (sz : Nat) (h : 4096 < sz) :
    btfFetchLoop (fun _ _ => .ok sz) 2 0 4096 = some (.ok (sz, [sz])) := by
  simp [btfFetchLoop, h]

/-- C6 witness: the spec's 10,000-byte scenario — one resize to 10,000,
success on the second fetch. -/
theorem btfFetchLoop_resize_once_witness :
    btfFetchLoop (fun _ _ => .ok 10000) 2 0 4096 = some (.ok (10000, [10000])) :=
  btfFetchLoop_resize_once 10000 (by norm_num)

/-- C7: if the info-fetch call reports the same size on every invocation,
the growing-buffer loop terminates within fuel 2 (at most two rounds):
directly when the size fits the 4096-byte initial buffer, and after one
exact resize otherwise. -/
theorem btfFetchLoop_const_terminates (f : Nat → Nat → Except Nat Nat) (sz : Nat)
    (hf : ∀ i l, f i l = .ok sz) :
    btfFetchLoop f 2 0 4096 =
      some (.ok (sz, if 4096 < sz then [sz] else [])) := by
  by_cases h : 4096 < sz <;> simp [btfFetchLoop, hf, h]

/-- C7 witness: a 9,000-byte blob reported consistently. -/
theorem btfFetchLoop_const_terminates_witness :
    btfFetchLoop (fun _ _ => .ok 9000) 2 0 4096 =
      some (.ok (9000, if 4096 < 9000 then [9000] else [])) :=
  btfFetchLoop_const_terminates (fun _ _ => .ok 9000) 9000 (fun _ _ => rfl)

/-- C1 counterexample: resolution succeeds but the delegated generic
load fails; `Extension::load` returns the error, yet all three attach
parameters remain stored (`attach_btf_obj_fd = some 0`,
`attach_prog_fd = some 1`, `attach_btf_id = some 42`), contradicting the
claim that the whole triple is discarded on any load failure. -/
theorem load_failure_keeps_params_cex :
    Extension.load KloadFail 2 ⟨ProgramData.initial⟩ 1 "f" SysState.init =
      some (.error (.syscallError "bpf_prog_load" 5),
            ⟨⟨none, some 0, some 1, some 42, []⟩⟩, ⟨[0], 1, []⟩) ∧
    (⟨⟨none, some 0, some 1, some 42, []⟩⟩ : Extension).data.attach_btf_id ≠ none :=
  ⟨rfl, by simp⟩

/-- C1 (amended): if resolution fails, `Extension::load` stores nothing
(the program state is exactly as before, so a retried load starts
clean); but if the delegated generic load call fails after a successful
resolution, the resolved triple remains stored in the attach slots. -/
theorem load_failure_state (K : Kernel) (fuel : Nat) (e : Extension) (p : Nat)
    (fn : String) (s : SysState) :
    (∀ err s', get_btf_info K fuel p fn s = some (.error err, s') →
      Extension.load K fuel e p fn s = some (.error err, e, s')) ∧
    (∀ bfd bid s' errL, get_btf_info K fuel p fn s = some (.ok (bfd, bid), s') →
      K.loadProgram = .error errL →
      Extension.load K fuel e p fn s =
        some (.error errL,
          ⟨{ e.data with attach_btf_obj_fd := some bfd, attach_prog_fd := some p,
                         attach_btf_id := some bid }⟩, s')) := by
  constructor
  · intro err s' h
    simp [Extension.load, h]
  · intro bfd bid s' errL h hK
    simp [Extension.load, h, load_program, hK]

/-- C1 (amended) witness: both branches at concrete inputs — a
resolution failure leaves the program untouched, a delegated-load
failure keeps the resolved triple. -/
theorem load_failure_state_witness :
    Extension.load Kzero 3 ⟨ProgramData.initial⟩ 2 "g" SysState.init =
      some (.error (.extensionError .noBTF), ⟨ProgramData.initial⟩, SysState.init) ∧
    Extension.load KloadFail 3 ⟨ProgramData.initial⟩ 2 "g" SysState.init =
      some (.error (.syscallError "bpf_prog_load" 5),
        ⟨{ ProgramData.initial with attach_btf_obj_fd := some 0,
                                    attach_prog_fd := some 2,
                                    attach_btf_id := some 42 }⟩,
        ⟨[0], 1, []⟩) :=
  ⟨(load_failure_state Kzero 3 ⟨ProgramData.initial⟩ 2 "g" SysState.init).1
      (.extensionError .noBTF) SysState.init rfl,
   (load_failure_state KloadFail 3 ⟨ProgramData.initial⟩ 2 "g" SysState.init).2
      0 42 ⟨[0], 1, []⟩ (.syscallError "bpf_prog_load" 5) rfl rfl⟩



/-- C9: `get_btf_info` never leaks the BTF object handle: on every
failure path the set of open fds is exactly what it was before the call
(the opened handle, if any, is closed before the error returns), and on
success exactly one new handle — the returned one — is open. -/
theorem get_btf_info_no_leak (K : Kernel) (fuel prog_fd : Nat) (fn : String)
    (s : SysState) (res : Except ProgramError (Nat × Nat)) (s' : SysState)
    (h : get_btf_info K fuel prog_fd fn s = some (res, s')) :
    (∀ err, res = .error err → s'.openFds = s.openFds) ∧
    ∀ bfd bid, res = .ok (bfd, bid) → s'.openFds = bfd :: s.openFds := by
  unfold get_btf_info at h
  simp only [openFd] at h
  repeat' split at h
  all_goals (try simp only [Option.some.injEq, Prod.mk.injEq] at h)
  all_goals obtain ⟨hr, hs'⟩ := h
  all_goals subst hs'
  all_goals subst hr
  all_goals exact ⟨fun err he => by simp_all [closeFd],
                   fun bfd bid he => by simp_all [closeFd]⟩

/-- C9 witness: the spec's missing-function scenario — valid type info
but the blob fails to parse; the opened handle (fd 0) is closed before
the error returns, leaving the open-fd set unchanged. -/
theorem get_btf_info_no_leak_witness :
    get_btf_info KparseFail 2 1 "missing_fn" SysState.init =
      some (.error (.btf (.parseError "bad")), ⟨[], 1, []⟩) ∧
    SysState.openFds ⟨[], 1, []⟩ = SysState.init.openFds :=
  ⟨rfl,
   (get_btf_info_no_leak KparseFail 2 1 "missing_fn" SysState.init
      (.error (.btf (.parseError "bad"))) ⟨[], 1, []⟩ rfl).1
      (.btf (.parseError "bad")) rfl⟩

/-- C10: when the link-create call fails, both `Extension::attach` and
`Extension::attach_to_program` return a `SyscallError` naming
"bpf_link_create" with the underlying OS error, insert nothing into the
link table, and leave the program state (loaded status and all three
attach parameters) exactly as before — only the trace records the one
failed call. -/
theorem link_create_failure (K : Kernel) :
    (∀ e pfd tfd bid s err,
      e.data.fd = some pfd → e.data.attach_prog_fd = some tfd →
      e.data.attach_btf_id = some bid →
      K.linkCreate ⟨pfd, tfd, BPF_CGROUP_INET_INGRESS, 0, some bid⟩ = .error err →
      Extension.attach K e s =
        (.error (.syscallError "bpf_link_create" err), e,
         { s with linkCalls :=
            s.linkCalls ++ [⟨pfd, tfd, BPF_CGROUP_INET_INGRESS, 0, some bid⟩] })) ∧
    (∀ fuel e p fn s bfd bid s₁ pfd err,
      get_btf_info K fuel p fn s = some (.ok (bfd, bid), s₁) →
      e.data.fd = some pfd →
      K.linkCreate ⟨pfd, p, BPF_CGROUP_INET_INGRESS, 0, some bid⟩ = .error err →
      Extension.attach_to_program K fuel e p fn s =
        some (.error (.syscallError "bpf_link_create" err), e,
          { closeFd bfd s₁ with linkCalls :=
             s₁.linkCalls ++ [⟨pfd, p, BPF_CGROUP_INET_INGRESS, 0, some bid⟩] })) := by
  constructor
  · intro e pfd tfd bid s err hfd hp hb hk
    simp [Extension.attach, ProgramData.fdRes, hfd, hp, hb, bpf_link_create, hk]
  · intro fuel e p fn s bfd bid s₁ pfd err hg hfd hk
    simp [Extension.attach_to_program, hg, ProgramData.fdRes, hfd,
          bpf_link_create, hk, closeFd]

/-- C10 witness: a kernel whose link-create fails with OS error 22, hit
through both entry points on a loaded extension. -/
theorem link_create_failure_witness :
    Extension.attach KlinkFail Eloaded SysState.init =
      (.error (.syscallError "bpf_link_create" 22), Eloaded,
       ⟨[], 0, [⟨1, 3, 0, 0, some 4⟩]⟩) ∧
    Extension.attach_to_program KlinkFail 2 Eloaded 5 "f" SysState.init =
      some (.error (.syscallError "bpf_link_create" 22), Eloaded,
        ⟨[], 1, [⟨1, 5, 0, 0, some 42⟩]⟩) :=
  ⟨(link_create_failure KlinkFail).1 Eloaded 1 3 4 SysState.init 22 rfl rfl rfl rfl,
   (link_create_failure KlinkFail).2 2 Eloaded 5 "f" SysState.init 0 42
      ⟨[0], 1, []⟩ 1 22 rfl rfl rfl⟩

/-- C8: every link-create call issued by `Extension::attach` or
`Extension::attach_to_program` (each call newly recorded in the trace)
carries attach-type tag 0 (`BPF_CGROUP_INET_INGRESS`), flags 0, and an
extra `TargetBtfId` argument holding the targeted BTF type id. -/
theorem link_create_args (K : Kernel) :
    (∀ e s c, c ∈ ((Extension.attach K e s).2.2).linkCalls →
      c ∈ s.linkCalls ∨
        (c.attachType = 0 ∧ c.flags = 0 ∧ ∃ b, c.targetBtfId = some b)) ∧
    (∀ fuel e p fn s r e' s',
      Extension.attach_to_program K fuel e p fn s = some (r, e', s') →
      ∀ c ∈ s'.linkCalls,
        c ∈ s.linkCalls ∨
          (c.attachType = 0 ∧ c.flags = 0 ∧ ∃ b, c.targetBtfId = some b)) := by
  have mem_step : ∀ (base : List LinkCreateCall) (pfd tfd bid : Nat)
      (c : LinkCreateCall),
      c ∈ base ++ [(⟨pfd, tfd, BPF_CGROUP_INET_INGRESS, 0, some bid⟩ : LinkCreateCall)] →
      c ∈ base ∨ (c.attachType = 0 ∧ c.flags = 0 ∧ ∃ b, c.targetBtfId = some b) := by
    intro base pfd tfd bid c hm
    rcases List.mem_append.mp hm with h1 | h1
    · exact Or.inl h1
    · rcases List.mem_singleton.mp h1 with rfl
      exact Or.inr ⟨rfl, rfl, bid, rfl⟩
  have attach_trace : ∀ e s, ((Extension.attach K e s).2.2).linkCalls = s.linkCalls ∨
      ∃ pfd tfd bid, ((Extension.attach K e s).2.2).linkCalls =
        s.linkCalls ++ [(⟨pfd, tfd, BPF_CGROUP_INET_INGRESS, 0, some bid⟩ : LinkCreateCall)] := by
    intro e s
    unfold Extension.attach ProgramData.fdRes bpf_link_create
    cases e.data.fd with
    | none => exact Or.inl rfl
    | some pfd =>
      cases e.data.attach_prog_fd with
      | none => exact Or.inl rfl
      | some tfd =>
        cases e.data.attach_btf_id with
        | none => exact Or.inl rfl
        | some bid =>
          dsimp only
          cases K.linkCreate ⟨pfd, tfd, BPF_CGROUP_INET_INGRESS, 0, some bid⟩ with
          | error err => exact Or.inr ⟨pfd, tfd, bid, rfl⟩
          | ok u => exact Or.inr ⟨pfd, tfd, bid, rfl⟩
  constructor
  · intro e s c hc
    rcases attach_trace e s with ht | ⟨pfd, tfd, bid, ht⟩
    · rw [ht] at hc
      exact Or.inl hc
    · rw [ht] at hc
      exact mem_step s.linkCalls pfd tfd bid c hc
  · intro fuel e p fn s r e' s' h c hc
    unfold Extension.attach_to_program at h
    cases hg : get_btf_info K fuel p fn s with
    | none => rw [hg] at h; exact absurd h (by simp)
    | some v =>
      obtain ⟨rr, s₁⟩ := v
      rw [hg] at h
      have hcalls := get_btf_info_linkCalls_eq K fuel p fn s rr s₁ hg
      cases rr with
      | error err =>
        simp only [Option.some.injEq, Prod.mk.injEq] at h
        obtain ⟨-, -, rfl⟩ := h
        rw [hcalls] at hc
        exact Or.inl hc
      | ok pr =>
        obtain ⟨bfd, bid⟩ := pr
        unfold ProgramData.fdRes at h
        cases hfd : e.data.fd with
        | none =>
          rw [hfd] at h
          simp only [Option.some.injEq, Prod.mk.injEq] at h
          obtain ⟨-, -, rfl⟩ := h
          have hcl : SysState.linkCalls (closeFd bfd s₁) = s.linkCalls := hcalls
          rw [hcl] at hc
          exact Or.inl hc
        | some pfd =>
          rw [hfd] at h
          unfold bpf_link_create at h
          dsimp only at h
          cases hk : K.linkCreate ⟨pfd, p, BPF_CGROUP_INET_INGRESS, 0, some bid⟩ with
          | error err =>
            rw [hk] at h
            simp only [Option.some.injEq, Prod.mk.injEq] at h
            obtain ⟨-, -, rfl⟩ := h
            have hm : c ∈ s.linkCalls ++
                [(⟨pfd, p, BPF_CGROUP_INET_INGRESS, 0, some bid⟩ : LinkCreateCall)] := by
              have hcl : SysState.linkCalls (closeFd bfd s₁) = s.linkCalls := hcalls
              simpa [hcl] using hc
            exact mem_step s.linkCalls pfd p bid c hm
          | ok u =>
            rw [hk] at h
            simp only [Option.some.injEq, Prod.mk.injEq] at h
            obtain ⟨-, -, rfl⟩ := h
            have hm : c ∈ s.linkCalls ++
                [(⟨pfd, p, BPF_CGROUP_INET_INGRESS, 0, some bid⟩ : LinkCreateCall)] := by
              have hcl : SysState.linkCalls (closeFd bfd s₁) = s.linkCalls := hcalls
              simpa [openFd, hcl] using hc
            exact mem_step s.linkCalls pfd p bid c hm



/-- C8 witness: concrete calls issued through both entry points carry
attach-type 0, flags 0, and a `TargetBtfId`. -/
theorem link_create_args_witness :
    ((⟨1, 3, 0, 0, some 4⟩ : LinkCreateCall) ∈ SysState.init.linkCalls ∨
      ((⟨1, 3, 0, 0, some 4⟩ : LinkCreateCall).attachType = 0 ∧
       (⟨1, 3, 0, 0, some 4⟩ : LinkCreateCall).flags = 0 ∧
       ∃ b, (⟨1, 3, 0, 0, some 4⟩ : LinkCreateCall).targetBtfId = some b)) ∧
    ((⟨1, 5, 0, 0, some 42⟩ : LinkCreateCall) ∈ SysState.init.linkCalls ∨
      ((⟨1, 5, 0, 0, some 42⟩ : LinkCreateCall).attachType = 0 ∧
       (⟨1, 5, 0, 0, some 42⟩ : LinkCreateCall).flags = 0 ∧
       ∃ b, (⟨1, 5, 0, 0, some 42⟩ : LinkCreateCall).targetBtfId = some b)) :=
  ⟨(link_create_args Kok).1 Eloaded SysState.init ⟨1, 3, 0, 0, some 4⟩
      (List.mem_singleton.mpr rfl),
   (link_create_args Kok).2 2 Eloaded 5 "f" SysState.init (.ok 1)
      ⟨⟨some 1, some 2, some 3, some 4, [1]⟩⟩ ⟨[1], 2, [⟨1, 5, 0, 0, some 42⟩]⟩
      rfl ⟨1, 5, 0, 0, some 42⟩ (List.mem_singleton.mpr rfl)⟩

/-- C2: after a successful `load(target, func_name)`, the extension is
loaded, the attach slots hold exactly the load-time target handle and
the BTF id that resolution produced for `func_name`; `attach` then
issues exactly one link-create call carrying exactly the stored handle and
id, and on link-create success inserts the resulting link into the link
table and returns its id. -/
theorem attach_after_load (K : Kernel) (fuel : Nat) (e0 : Extension) (p : Nat)
    (fn : String) (s0 : SysState) (e1 : Extension) (s1 : SysState)
    (h : Extension.load K fuel e0 p fn s0 = some (.ok (), e1, s1)) :
    ∃ pfd bid,
      e1.data.fd = some pfd ∧
      e1.data.attach_prog_fd = some p ∧
      e1.data.attach_btf_id = some bid ∧
      (∃ bfd s', get_btf_info K fuel p fn s0 = some (.ok (bfd, bid), s')) ∧
      ∀ s : SysState,
        ((Extension.attach K e1 s).2.2).linkCalls =
          s.linkCalls ++ [(⟨pfd, p, BPF_CGROUP_INET_INGRESS, 0, some bid⟩ : LinkCreateCall)] ∧
        (K.linkCreate ⟨pfd, p, BPF_CGROUP_INET_INGRESS, 0, some bid⟩ = .ok () →
          ∃ lid e2 s2, Extension.attach K e1 s = (.ok lid, e2, s2) ∧
            e2.data.links = e1.data.links ++ [lid]) := by
  unfold Extension.load at h
  cases hg : get_btf_info K fuel p fn s0 with
  | none => rw [hg] at h; exact absurd h (by simp)
  | some v =>
    obtain ⟨rr, s'⟩ := v
    rw [hg] at h
    cases rr with
    | error err =>
      simp only [Option.some.injEq, Prod.mk.injEq] at h
      exact absurd h.1 (by simp)
    | ok pr =>
      obtain ⟨bfd, bid⟩ := pr
      dsimp only at h
      unfold load_program at h
      cases hK : K.loadProgram with
      | error eL =>
        rw [hK] at h
        dsimp only at h
        simp at h
      | ok u =>
        rw [hK] at h
        dsimp only [openFd] at h
        simp only [Option.some.injEq, Prod.mk.injEq] at h
        obtain ⟨-, he1, hs1⟩ := h
        subst he1
        refine ⟨s'.nextFd, bid, rfl, rfl, rfl, ⟨bfd, s', rfl⟩, ?_⟩
        intro s
        constructor
        · unfold Extension.attach ProgramData.fdRes bpf_link_create
          dsimp only
          cases K.linkCreate ⟨s'.nextFd, p, BPF_CGROUP_INET_INGRESS, 0, some bid⟩ with
          | error err => rfl
          | ok u => rfl
        · intro hk
          unfold Extension.attach ProgramData.fdRes bpf_link_create
          dsimp only
          rw [hk]
          exact ⟨_, _, _, rfl, rfl⟩

/-- C2 witness: a concrete successful load followed by `attach`. -/
theorem attach_after_load_witness :
    ∃ pfd bid,
      (⟨⟨some 1, some 0, some 3, some 42, []⟩⟩ : Extension).data.fd = some pfd ∧
      (⟨⟨some 1, some 0, some 3, some 42, []⟩⟩ : Extension).data.attach_prog_fd = some 3 ∧
      (⟨⟨some 1, some 0, some 3, some 42, []⟩⟩ : Extension).data.attach_btf_id = some bid ∧
      (∃ bfd s', get_btf_info Kok 2 3 "foo" SysState.init = some (.ok (bfd, bid), s')) ∧
      ∀ s : SysState,
        ((Extension.attach Kok ⟨⟨some 1, some 0, some 3, some 42, []⟩⟩ s).2.2).linkCalls =
          s.linkCalls ++ [(⟨pfd, 3, BPF_CGROUP_INET_INGRESS, 0, some bid⟩ : LinkCreateCall)] ∧
        (Kok.linkCreate ⟨pfd, 3, BPF_CGROUP_INET_INGRESS, 0, some bid⟩ = .ok () →
          ∃ lid e2 s2,
            Extension.attach Kok ⟨⟨some 1, some 0, some 3, some 42, []⟩⟩ s = (.ok lid, e2, s2) ∧
            e2.data.links =
              (⟨⟨some 1, some 0, some 3, some 42, []⟩⟩ : Extension).data.links ++ [lid]) :=
  attach_after_load Kok 2 ⟨ProgramData.initial⟩ 3 "foo" SysState.init
    ⟨⟨some 1, some 0, some 3, some 42, []⟩⟩ ⟨[1, 0], 2, []⟩ rfl

/-- C3: `attach_to_program` leaves all stored attach parameters (and the
loaded status) unchanged, and when resolution of the freshly supplied
pair succeeds on a loaded program, the link-create call it issues uses
the new target handle and newly resolved BTF id instead of the stored
ones. -/
theorem attach_to_program_frame (K : Kernel) (fuel : Nat) (e : Extension) (p : Nat)
    (fn : String) (s : SysState) (r : Except ProgramError Nat) (e' : Extension)
    (s' : SysState)
    (h : Extension.attach_to_program K fuel e p fn s = some (r, e', s')) :
    (e'.data.fd = e.data.fd ∧
     e'.data.attach_btf_obj_fd = e.data.attach_btf_obj_fd ∧
     e'.data.attach_prog_fd = e.data.attach_prog_fd ∧
     e'.data.attach_btf_id = e.data.attach_btf_id) ∧
    ∀ bfd bid s₁ pfd,
      get_btf_info K fuel p fn s = some (.ok (bfd, bid), s₁) →
      e.data.fd = some pfd →
      s'.linkCalls =
        s.linkCalls ++ [(⟨pfd, p, BPF_CGROUP_INET_INGRESS, 0, some bid⟩ : LinkCreateCall)] := by
  unfold Extension.attach_to_program at h
  cases hg : get_btf_info K fuel p fn s with
  | none => rw [hg] at h; exact absurd h (by simp)
  | some v =>
    obtain ⟨rr, s₁'⟩ := v
    rw [hg] at h
    have hcalls := get_btf_info_linkCalls_eq K fuel p fn s rr s₁' hg
    cases rr with
    | error err =>
      simp only [Option.some.injEq, Prod.mk.injEq] at h
      obtain ⟨-, rfl, rfl⟩ := h
      refine ⟨⟨rfl, rfl, rfl, rfl⟩, ?_⟩
      intro bfd bid s₁ pfd hg2 hfd2
      simp at hg2
    | ok pr =>
      obtain ⟨bfd0, bid0⟩ := pr
      unfold ProgramData.fdRes at h
      dsimp only at h
      cases hfd : e.data.fd with
      | none =>
        rw [hfd] at h
        dsimp only at h
        simp only [Option.some.injEq, Prod.mk.injEq] at h
        obtain ⟨-, rfl, rfl⟩ := h
        refine ⟨⟨hfd, rfl, rfl, rfl⟩, ?_⟩
        intro bfd bid s₁ pfd hg2 hfd2
        exact absurd hfd2 (by simp)
      | some pfd0 =>
        rw [hfd] at h
        unfold bpf_link_create at h
        dsimp only at h
        cases hk : K.linkCreate ⟨pfd0, p, BPF_CGROUP_INET_INGRESS, 0, some bid0⟩ with
        | error err =>
          rw [hk] at h
          dsimp only at h
          simp only [Option.some.injEq, Prod.mk.injEq] at h
          obtain ⟨-, rfl, rfl⟩ := h
          refine ⟨⟨hfd, rfl, rfl, rfl⟩, ?_⟩
          intro bfd bid s₁ pfd hg2 hfd2
          simp only [Option.some.injEq, Prod.mk.injEq, Except.ok.injEq] at hg2
          obtain ⟨⟨rfl, rfl⟩, rfl⟩ := hg2
          obtain rfl := Option.some.inj hfd2
          simp [closeFd, hcalls]
        | ok u =>
          rw [hk] at h
          dsimp only [openFd] at h
          simp only [Option.some.injEq, Prod.mk.injEq] at h
          obtain ⟨-, rfl, rfl⟩ := h
          refine ⟨⟨rfl, rfl, rfl, rfl⟩, ?_⟩
          intro bfd bid s₁ pfd hg2 hfd2
          simp only [Option.some.injEq, Prod.mk.injEq, Except.ok.injEq] at hg2
          obtain ⟨⟨rfl, rfl⟩, rfl⟩ := hg2
          obtain rfl := Option.some.inj hfd2
          simp [closeFd, hcalls]

/-- C3 witness: a concrete `attach_to_program` on a loaded extension
with stored parameters `(2, 3, 4)` targeting the new pair `(5, "f")`. -/
theorem attach_to_program_frame_witness :
    ((⟨⟨some 1, some 2, some 3, some 4, [1]⟩⟩ : Extension).data.fd = Eloaded.data.fd ∧
     (⟨⟨some 1, some 2, some 3, some 4, [1]⟩⟩ : Extension).data.attach_btf_obj_fd =
       Eloaded.data.attach_btf_obj_fd ∧
     (⟨⟨some 1, some 2, some 3, some 4, [1]⟩⟩ : Extension).data.attach_prog_fd =
       Eloaded.data.attach_prog_fd ∧
     (⟨⟨some 1, some 2, some 3, some 4, [1]⟩⟩ : Extension).data.attach_btf_id =
       Eloaded.data.attach_btf_id) ∧
    ∀ bfd bid s₁ pfd,
      get_btf_info Kok 2 5 "f" SysState.init = some (.ok (bfd, bid), s₁) →
      Eloaded.data.fd = some pfd →
      SysState.linkCalls ⟨[1], 2, [⟨1, 5, 0, 0, some 42⟩]⟩ =
        SysState.init.linkCalls ++
          [(⟨pfd, 5, BPF_CGROUP_INET_INGRESS, 0, some bid⟩ : LinkCreateCall)] :=
  attach_to_program_frame Kok 2 Eloaded 5 "f" SysState.init (.ok 1)
    ⟨⟨some 1, some 2, some 3, some 4, [1]⟩⟩ ⟨[1], 2, [⟨1, 5, 0, 0, some 42⟩]⟩ rfl

end AyaExt
